import Mathlib

/-!
Verification development for the farcaster-digest repository (src/index.js).

The embedding translates the aggregation pipeline into pure Lean definitions:
  * `calculateScore`, `getAuthorName`, `toScoredCast` — per-cast processing
    (lines 85-103 and 188-198 of src/index.js);
  * `keepCast`, `prepared`, `rankCasts` — the 48-hour window filter, stable
    descending sort, and top-5 truncation (lines 111-112 and 183-200);
  * `processUser`, `fetchLoop`, `fetchChannelCasts` — the sequential,
    delay-governed per-author fetch loop (lines 109-207), with the external
    Neynar provider modelled as an oracle (`Provider`) and the observable
    rate-limit behaviour recorded as an event trace (`FetchEvent`);
  * `CacheState`, `isCacheValid`, `buildDigest`, `handleRequest` — the
    route handler with its single-slot 30-minute TTL cache (lines 23-27 and
    398-445);
  * `fetchChannelCastsGuarded`, `routeEntry`, `routeDigest` — the two
    nested try/catch layers around a channel's aggregation (lines 203-206
    and 426-435), with the try-block outcome represented as an `Except`.

JavaScript truthiness (`x || y` falls through on `0`, `""`, `undefined`,
`null`, `NaN`) is modelled explicitly by the `jsOr*` helpers; `undefined`
and `null` field accesses are modelled by `Option`.  Timestamps are
milliseconds since epoch as `Int`; a `RawCast.timestamp` of `none` stands
for a missing or unparsable timestamp (for which `new Date(...)` yields an
Invalid Date, and any `>=` comparison on it is `false`).
-/

namespace FarcasterDigest

/-- JS truthiness of an optional number: `undefined`/`null` and `0` are falsy. -/
def jsTruthyNat (o : Option Nat) : Bool :=
  match o with
  | some n => decide (n ≠ 0)
  | none => false

/-- `a || d` where `a` is an optional number and `d` a number: returns the
value of `a` when it is truthy, otherwise `d`. -/
def jsOrNat (a : Option Nat) (d : Nat) : Nat :=
  if jsTruthyNat a then a.getD 0 else d

/-- JS truthiness of an optional string: `undefined`/`null` and `""` are falsy. -/
def jsTruthyStr (o : Option String) : Bool :=
  match o with
  | some s => decide (s ≠ "")
  | none => false

/-- `a || d` on an optional string. -/
def jsOrStr (a : Option String) (d : String) : String :=
  if jsTruthyStr a then a.getD "" else d

/-- JS truthiness of the cache timestamp (`null` or a number; `0` is falsy). -/
def jsTruthyInt (o : Option Int) : Bool :=
  match o with
  | some n => decide (n ≠ 0)
  | none => false

/-- `cast.reactions`: the `likes` and `recasts` fields hold the array
lengths `reactions.likes.length` / `reactions.recasts.length`; `none` when
the corresponding array is absent. -/
structure Reactions where
  likes : Option Nat
  recasts : Option Nat
deriving DecidableEq

/-- `cast.replies`: the code reads both `replies.count` (object form) and
`replies.length` (array form) from the same field. -/
structure Replies where
  count : Option Nat
  length : Option Nat
deriving DecidableEq

/-- `cast.author` with the fields read by `getAuthorName`. -/
structure Author where
  username : Option String
  display_name : Option String
  fname : Option String
  fid : Option Nat
deriving DecidableEq

/-- A raw cast as returned by the provider, with exactly the fields the
pipeline reads.  `timestamp` is the parse result of `new Date(cast.timestamp)`
in ms since epoch; `none` means missing or unparsable.  `likes` / `recasts`
are the lengths of the top-level fallback arrays `cast.likes` /
`cast.recasts` read at lines 192-194. -/
structure RawCast where
  author : Option Author
  text : Option String
  timestamp : Option Int
  hash : Option String
  reactions : Option Reactions
  replies : Option Replies
  likes : Option Nat
  recasts : Option Nat
deriving DecidableEq

/-- The template literal `` `FID-${cast.author?.fid}` `` (line 89):
interpolating `undefined` produces the text "undefined". -/
def fidPlaceholder (o : Option Nat) : String :=
  "FID-" ++ (match o with
    | some n => toString n
    | none => "undefined")

/-- `getAuthorName` (lines 85-91): fallback chain
`username || display_name || fname || placeholder || 'Unknown'`. -/
def getAuthorName (c : RawCast) : String :=
  jsOrStr (c.author.bind Author.username)
    (jsOrStr (c.author.bind Author.display_name)
      (jsOrStr (c.author.bind Author.fname)
        (if fidPlaceholder (c.author.bind Author.fid) = "" then "Unknown"
         else fidPlaceholder (c.author.bind Author.fid))))

/-- The same fallback chain with the final `|| 'Unknown'` step removed;
used to state that this step is unreachable. -/
def getAuthorNameNoFinal (c : RawCast) : String :=
  jsOrStr (c.author.bind Author.username)
    (jsOrStr (c.author.bind Author.display_name)
      (jsOrStr (c.author.bind Author.fname)
        (fidPlaceholder (c.author.bind Author.fid))))

/-- `calculateScore` (lines 97-103):
`likes + replies*2 + recasts*3` over
`cast.reactions?.likes?.length || 0`, `cast.replies?.count || 0`,
`cast.reactions?.recasts?.length || 0`. -/
def calculateScore (c : RawCast) : Nat :=
  jsOrNat (c.reactions.bind Reactions.likes) 0
    + jsOrNat (c.replies.bind Replies.count) 0 * 2
    + jsOrNat (c.reactions.bind Reactions.recasts) 0 * 3

/-- The cast record assembled at lines 188-198.  Note that the displayed
`likes`/`replies`/`recasts` fields use fallback sources
(`cast.likes?.length`, `cast.replies?.length`, `cast.recasts?.length`)
that `calculateScore` does not consult. -/
structure ScoredCast where
  text : Option String
  author : String
  authorFid : Option Nat
  likes : Nat
  replies : Nat
  recasts : Nat
  timestamp : Option Int
  hash : Option String
  score : Nat
deriving DecidableEq

/-- The `.map` body at lines 188-198. -/
def toScoredCast (c : RawCast) : ScoredCast :=
  { text := c.text
    author := getAuthorName c
    authorFid := c.author.bind Author.fid
    likes := jsOrNat (c.reactions.bind Reactions.likes) (jsOrNat c.likes 0)
    replies := jsOrNat (c.replies.bind Replies.count) (jsOrNat (c.replies.bind Replies.length) 0)
    recasts := jsOrNat (c.reactions.bind Reactions.recasts) (jsOrNat c.recasts 0)
    timestamp := c.timestamp
    hash := c.hash
    score := calculateScore c }

/-- jsOrNat with default 0 is just `getD 0` (a falsy stored `0` still yields `0`). -/
theorem jsOrNat_zero (o : Option Nat) : jsOrNat o 0 = o.getD 0 := by
  cases o with
  | none => rfl
  | some n =>
    by_cases h : n = 0 <;> simp [jsOrNat, jsTruthyNat, h]

/-- Claim C2: for every cast, the engagement score equals
`likes + 2*replies + 3*recasts` computed from the cast's reaction and reply
counts as read by the code (`reactions.likes.length`, `replies.count`,
`reactions.recasts.length`), with any missing count treated as 0; the
function is total and pure, so a cast with no counts scores 0. -/
theorem calculateScore_linear_formula (c : RawCast) :
    calculateScore c =
      (c.reactions.bind Reactions.likes).getD 0
        + 2 * (c.replies.bind Replies.count).getD 0
        + 3 * (c.reactions.bind Reactions.recasts).getD 0 := by
  unfold calculateScore
  rw [jsOrNat_zero, jsOrNat_zero, jsOrNat_zero]
  ring

/-- A cast carrying no author data at all (`cast.author` undefined). -/
def noAuthorCast : RawCast :=
  { author := none, text := none, timestamp := none, hash := none
    reactions := none, replies := none, likes := none, recasts := none }

/-- Claim C10: the author-name extraction evaluates the fallback chain
username → display name → fname → `FID-` placeholder; the placeholder is
always a non-empty string, so the final `|| 'Unknown'` branch is
unreachable (dropping it never changes the result), and a cast with no
author data at all yields "FID-undefined". -/
theorem author_name_fallback_chain :
    (∀ o : Option Nat, fidPlaceholder o ≠ "") ∧
    (∀ c : RawCast, getAuthorName c = getAuthorNameNoFinal c) ∧
    getAuthorName noAuthorCast = "FID-undefined" := by
  have hne : ∀ o : Option Nat, fidPlaceholder o ≠ "" := by
    intro o h
    have hlen := congrArg String.length h
    have h4 : ("FID-" : String).length = 4 := rfl
    have h0 : ("" : String).length = 0 := rfl
    unfold fidPlaceholder at hlen
    rw [String.length_append, h4, h0] at hlen
    omega
  refine ⟨hne, ?_, by decide⟩
  intro c
  unfold getAuthorName getAuthorNameNoFinal
  rw [if_neg (hne (c.author.bind Author.fid))]

/-- `WINDOW_HOURS` worth of milliseconds: `48 * 60 * 60 * 1000` (line 112). -/
def WINDOW_MS : Int := 48 * 60 * 60 * 1000

/-- The filter predicate at lines 184-187: `new Date(cast.timestamp) >= oneDayAgo`
with `oneDayAgo = now - 48h`.  An Invalid Date (missing or unparsable
timestamp) compares `false`.  There is no comparison against `now` itself. -/
def keepCast (now : Int) (c : RawCast) : Bool :=
  match c.timestamp with
  | some ms => decide (now - WINDOW_MS ≤ ms)
  | none => false

/-- The intermediate list after `.filter` and `.map` (lines 183-198), in
original fetch order. -/
def prepared (now : Int) (casts : List RawCast) : List ScoredCast :=
  (casts.filter (keepCast now)).map toScoredCast

/-- The comparator `(a, b) => b.score - a.score` (line 199): `a` may precede
`b` exactly when `b.score ≤ a.score`; JS `Array.prototype.sort` is stable. -/
def descByScore (a b : ScoredCast) : Bool :=
  decide (b.score ≤ a.score)

/-- Lines 183-200: filter to the window, map to scored records, stable
sort by descending score, truncate to the first 5. -/
def rankCasts (now : Int) (casts : List RawCast) : List ScoredCast :=
  ((prepared now casts).mergeSort descByScore).take 5

theorem descByScore_trans (a b c : ScoredCast) :
    descByScore a b → descByScore b c → descByScore a c := by
  simp only [descByScore, decide_eq_true_eq]
  omega

theorem descByScore_total (a b : ScoredCast) :
    descByScore a b || descByScore b a := by
  simp only [descByScore, Bool.or_eq_true, decide_eq_true_eq]
  omega

/-- Claim C1 (amended): the window filter retains exactly those casts whose
parsed timestamp is at least `now - 48h`; casts with missing or unparsable
timestamps are excluded, but the filter enforces no upper bound, so a cast
with a timestamp later than `now` is retained. -/
theorem window_filter_no_upper_bound (now : Int) (casts : List RawCast) (c : RawCast) :
    c ∈ casts.filter (keepCast now) ↔
      c ∈ casts ∧ ∃ ms, c.timestamp = some ms ∧ now - WINDOW_MS ≤ ms := by
  rw [List.mem_filter]
  refine and_congr_right fun _ => ?_
  cases h : c.timestamp with
  | none => simp [keepCast, h]
  | some ms => simp [keepCast, h]

/-- A cast whose timestamp is one minute later than the reference instant
`1000000000000`. -/
def futureCast : RawCast :=
  { author := none, text := some "posted in the future", timestamp := some 1000000060000
    hash := some "0xf", reactions := none, replies := none, likes := none, recasts := none }

/-- Claim C1 counterexample: against the claim, a cast with a timestamp
strictly later than `now` is NOT excluded: it passes the window filter and
appears in the channel result. -/
theorem window_filter_retains_future_cast :
    keepCast 1000000000000 futureCast = true ∧
    prepared 1000000000000 [futureCast] = [toScoredCast futureCast] ∧
    rankCasts 1000000000000 [futureCast] = [toScoredCast futureCast] := by
  refine ⟨by decide, by decide, ?_⟩
  have hp : prepared 1000000000000 [futureCast] = [toScoredCast futureCast] := by decide
  rw [rankCasts, hp, List.mergeSort_singleton]
  rfl

/-- Claim C3: every channel result has at most 5 casts, is sorted
non-increasing by score, and equals the 5-truncation of the stable
descending sort of the fetched casts: any two casts with equal scores that
appear in fetch order `[a, b]` keep that relative order after sorting. -/
theorem ranked_casts_top5_sorted_stable (now : Int) (casts : List RawCast) :
    (rankCasts now casts).length ≤ 5 ∧
    (rankCasts now casts).Pairwise (fun a b => b.score ≤ a.score) ∧
    rankCasts now casts = ((prepared now casts).mergeSort descByScore).take 5 ∧
    (∀ a b : ScoredCast, a.score = b.score →
      List.Sublist [a, b] (prepared now casts) →
      List.Sublist [a, b] ((prepared now casts).mergeSort descByScore)) := by
  refine ⟨?_, ?_, rfl, ?_⟩
  · simp [rankCasts]
  · have hs := List.sorted_mergeSort descByScore_trans descByScore_total (prepared now casts)
    have hs2 : ((prepared now casts).mergeSort descByScore).Pairwise
        (fun a b => b.score ≤ a.score) := by
      refine hs.imp ?_
      intro a b h
      simpa [descByScore] using h
    exact hs2.sublist (List.take_sublist 5 _)
  · intro a b hscore hsub
    refine List.pair_sublist_mergeSort descByScore_trans descByScore_total ?_ hsub
    simp [descByScore, hscore]

/-- Two distinct casts with equal engagement scores, in fetch order. -/
def tieCastA : RawCast :=
  { author := none, text := some "first with score 1", timestamp := some 100
    hash := some "0xa", reactions := some { likes := some 1, recasts := none }
    replies := none, likes := none, recasts := none }

/-- Second cast with the same score as `tieCastA`. -/
def tieCastB : RawCast :=
  { author := none, text := some "second with score 1", timestamp := some 200
    hash := some "0xb", reactions := some { likes := some 1, recasts := none }
    replies := none, likes := none, recasts := none }

/-- Witness for C3: at a concrete two-cast input with tied scores, the
stability clause applies and keeps the fetch order. -/
theorem ranked_casts_top5_sorted_stable_witness :
    List.Sublist [toScoredCast tieCastA, toScoredCast tieCastB]
      ((prepared 0 [tieCastA, tieCastB]).mergeSort descByScore) :=
  (ranked_casts_top5_sorted_stable 0 [tieCastA, tieCastB]).2.2.2
    (toScoredCast tieCastA) (toScoredCast tieCastB) (by decide) (by decide)

/-- A raw cast whose engagement counts are only present in the fallback
sources (`cast.likes`, `cast.replies.length`, `cast.recasts`), which the
record's display fields use but `calculateScore` does not. -/
def fallbackCast : RawCast :=
  { author := none, text := some "fallback counts only", timestamp := some 0
    hash := some "0xc", reactions := none
    replies := some { count := none, length := some 2 }
    likes := some 1, recasts := some 1 }

/-- Claim C9 counterexample: for a cast whose counts come from the fallback
sources, the stored score (0) differs from
`likes + 2*replies + 3*recasts = 1 + 4 + 3 = 8` over the record's own
stored fields. -/
theorem score_mismatch_counterexample :
    (toScoredCast fallbackCast).likes = 1 ∧
    (toScoredCast fallbackCast).replies = 2 ∧
    (toScoredCast fallbackCast).recasts = 1 ∧
    (toScoredCast fallbackCast).score = 0 ∧
    (toScoredCast fallbackCast).score ≠
      (toScoredCast fallbackCast).likes + 2 * (toScoredCast fallbackCast).replies
        + 3 * (toScoredCast fallbackCast).recasts := by
  decide

/-- Claim C9 (amended): a record's score is `calculateScore` of the raw
cast, computed once at assembly from the primary count sources
(`reactions.likes.length`, `replies.count`, `reactions.recasts.length`);
it equals `likes + 2*replies + 3*recasts` of the record's own stored fields
whenever the fallback sources (`cast.likes`, `cast.recasts`,
`cast.replies.length`) are absent, but can differ when a stored count comes
from a fallback source. -/
theorem score_from_primary_sources (c : RawCast)
    (h1 : c.likes = none) (h2 : c.recasts = none)
    (h3 : c.replies.bind Replies.length = none) :
    (toScoredCast c).score = calculateScore c ∧
    (toScoredCast c).score =
      (toScoredCast c).likes + 2 * (toScoredCast c).replies
        + 3 * (toScoredCast c).recasts := by
  refine ⟨rfl, ?_⟩
  have hz : jsOrNat none 0 = 0 := rfl
  simp only [toScoredCast, calculateScore, h1, h2, h3, hz]
  ring

/-- A raw cast with all counts present in the primary sources and none in
the fallback sources. -/
def primaryCast : RawCast :=
  { author := none, text := some "primary counts", timestamp := some 0
    hash := some "0xd", reactions := some { likes := some 2, recasts := some 1 }
    replies := some { count := some 3, length := none }
    likes := none, recasts := none }

/-- Witness for the amended C9 at a concrete cast with primary counts
(score `2 + 3*2 + 1*3 = 11`). -/
theorem score_from_primary_sources_witness :
    (toScoredCast primaryCast).score = calculateScore primaryCast ∧
    (toScoredCast primaryCast).score =
      (toScoredCast primaryCast).likes + 2 * (toScoredCast primaryCast).replies
        + 3 * (toScoredCast primaryCast).recasts :=
  score_from_primary_sources primaryCast rfl rfl rfl

/-- An entry of `CHANNEL_USERS`: a FID (number) or a username (string). -/
inductive UserIdent where
  | fid (n : Nat)
  | name (s : String)
deriving DecidableEq

/-- `parseInt` for the identifiers this program passes it: a string with a
leading digit parses to its leading decimal digits, anything else is `NaN`
(`none`).  The config only ever holds numbers and non-numeric usernames. -/
def parseIntModel (s : String) : Option Nat :=
  let ds := s.data.takeWhile Char.isDigit
  if ds.isEmpty then none
  else some (ds.foldl (fun acc c => acc * 10 + (c.toNat - 48)) 0)

/-- The external Neynar provider as an oracle.  `lookupUser` models
`lookupUserByUsername` (`Except.error` = the call threw; the `Option Nat`
is `userResponse.result?.user?.fid || userResponse.user?.fid`).
`fetchCasts` models `fetchCastsForUser` (`Except.error` = the call threw). -/
structure Provider where
  lookupUser : String → Except String (Option Nat)
  fetchCasts : Nat → Except String (List RawCast)

/-- Observable events of one channel's fetch loop, in order.
`lookupCall resolved` is a username-lookup API call (`resolved` = it did not
throw and produced a truthy fid); `castCall ok` is a cast-fetch API call;
`delay ms` is an `await setTimeout(ms)` sleep. -/
inductive FetchEvent where
  | lookupCall (resolved : Bool)
  | castCall (ok : Bool)
  | delay (ms : Nat)
deriving DecidableEq

/-- The cast-fetch step (lines 153-175): on a thrown error, `continue` with
no delay; on success, collect the casts and sleep 2000 ms. -/
def doFetch (p : Provider) (fid : Nat) : List RawCast × List FetchEvent :=
  match p.fetchCasts fid with
  | Except.error _ => ([], [FetchEvent.castCall false])
  | Except.ok cs => (cs, [FetchEvent.castCall true, FetchEvent.delay 2000])

/-- One iteration of the per-author loop (lines 126-180): numbers (and
numeric strings, via `parseInt`) go straight to the cast fetch; other
strings are first resolved by a lookup call, which sleeps 2000 ms only when
it succeeds with a truthy fid, and `continue`s immediately otherwise. -/
def processUser (p : Provider) (u : UserIdent) : List RawCast × List FetchEvent :=
  match u with
  | UserIdent.fid n => doFetch p n
  | UserIdent.name s =>
    match parseIntModel s with
    | some n => doFetch p n
    | none =>
      match p.lookupUser s with
      | Except.error _ => ([], [FetchEvent.lookupCall false])
      | Except.ok r =>
        if jsTruthyNat r then
          let f := doFetch p (r.getD 0)
          (f.1, FetchEvent.lookupCall true :: FetchEvent.delay 2000 :: f.2)
        else ([], [FetchEvent.lookupCall false])

/-- The sequential loop over the channel's users, concatenating casts into
`allCasts` and recording the event trace. -/
def fetchLoop (p : Provider) : List UserIdent → List RawCast × List FetchEvent
  | [] => ([], [])
  | u :: us =>
    let h := processUser p u
    let t := fetchLoop p us
    (h.1 ++ t.1, h.2 ++ t.2)

/-- `fetchChannelCasts` (lines 109-207): empty rosters return early
(lines 115-118), otherwise the roster is truncated to 4 users (line 121),
fetched sequentially, and the casts are filtered, scored, sorted and
truncated.  Every operation that could throw is caught inside the loop, so
the function's own outer try/catch (lines 203-206) never fires. -/
def fetchChannelCasts (p : Provider) (users0 : List UserIdent) (now : Int) :
    List ScoredCast × List FetchEvent :=
  if users0.length = 0 then ([], [])
  else
    let r := fetchLoop p (users0.take 4)
    (rankCasts now r.1, r.2)

/-- A sample successful cast record for the witnesses. -/
def sampleRawCast : RawCast :=
  { author := some { username := some "alice", display_name := none, fname := none, fid := some 7 }
    text := some "gm", timestamp := some 50, hash := some "0x2"
    reactions := some { likes := some 3, recasts := some 1 }
    replies := some { count := some 2, length := none }
    likes := none, recasts := none }

/-- A provider on which fetching FID 1 throws a transport error and every
other fetch succeeds with `sampleRawCast`; lookups always fail. -/
def witnessProvider : Provider :=
  { lookupUser := fun _ => Except.error "user not found"
    fetchCasts := fun n => if n = 1 then Except.error "transport error" else Except.ok [sampleRawCast] }

/-- Whether an event is an external provider API call. -/
def isCall : FetchEvent → Bool
  | FetchEvent.lookupCall _ => true
  | FetchEvent.castCall _ => true
  | FetchEvent.delay _ => false

/-- `true` iff no two provider calls occur adjacently in the trace. -/
def noBackToBackCalls : List FetchEvent → Bool
  | e1 :: e2 :: rest => !(isCall e1 && isCall e2) && noBackToBackCalls (e2 :: rest)
  | _ => true

/-- Claim C8 counterexample: against the claim, provider calls CAN be
issued back-to-back: when the fetch for the first author throws, the loop
`continue`s without any delay and immediately issues the next author's
fetch call. -/
theorem back_to_back_calls_counterexample :
    (fetchChannelCasts witnessProvider [UserIdent.fid 1, UserIdent.fid 2] 0).2 =
      [FetchEvent.castCall false, FetchEvent.castCall true, FetchEvent.delay 2000] ∧
    noBackToBackCalls
      (fetchChannelCasts witnessProvider [UserIdent.fid 1, UserIdent.fid 2] 0).2 = false := by
  have htrace : (fetchChannelCasts witnessProvider [UserIdent.fid 1, UserIdent.fid 2] 0).2 =
      [FetchEvent.castCall false, FetchEvent.castCall true, FetchEvent.delay 2000] := by
    show (fetchLoop witnessProvider [UserIdent.fid 1, UserIdent.fid 2]).2 = _
    show (processUser witnessProvider (UserIdent.fid 1)).2
        ++ ((processUser witnessProvider (UserIdent.fid 2)).2 ++ []) = _
    rfl
  exact ⟨htrace, by rw [htrace]; rfl⟩

/-- `true` at the head of a trace iff the next event is the 2000 ms sleep. -/
def delayNext : List FetchEvent → Bool
  | FetchEvent.delay 2000 :: _ => true
  | _ => false

/-- `true` iff every successful provider call in the trace is immediately
followed by the 2000 ms cool-down sleep. -/
def delaysAfterSuccess : List FetchEvent → Bool
  | [] => true
  | FetchEvent.lookupCall true :: rest => delayNext rest && delaysAfterSuccess rest
  | FetchEvent.castCall true :: rest => delayNext rest && delaysAfterSuccess rest
  | _ :: rest => delaysAfterSuccess rest

theorem delaysAfterSuccess_castFail (rest : List FetchEvent) :
    delaysAfterSuccess (FetchEvent.castCall false :: rest) = delaysAfterSuccess rest := rfl

theorem delaysAfterSuccess_castOk (rest : List FetchEvent) :
    delaysAfterSuccess (FetchEvent.castCall true :: FetchEvent.delay 2000 :: rest) =
      delaysAfterSuccess rest := rfl

theorem delaysAfterSuccess_lookupFail (rest : List FetchEvent) :
    delaysAfterSuccess (FetchEvent.lookupCall false :: rest) = delaysAfterSuccess rest := rfl

theorem delaysAfterSuccess_lookupOk (rest : List FetchEvent) :
    delaysAfterSuccess (FetchEvent.lookupCall true :: FetchEvent.delay 2000 :: rest) =
      delaysAfterSuccess rest := rfl

theorem delaysAfterSuccess_doFetch (p : Provider) (n : Nat) (ys : List FetchEvent) :
    delaysAfterSuccess ((doFetch p n).2 ++ ys) = delaysAfterSuccess ys := by
  unfold doFetch
  cases p.fetchCasts n with
  | error m => exact delaysAfterSuccess_castFail ys
  | ok cs => exact delaysAfterSuccess_castOk ys

theorem delaysAfterSuccess_processUser (p : Provider) (u : UserIdent) (ys : List FetchEvent) :
    delaysAfterSuccess ((processUser p u).2 ++ ys) = delaysAfterSuccess ys := by
  cases u with
  | fid n => exact delaysAfterSuccess_doFetch p n ys
  | name s =>
    cases hp : parseIntModel s with
    | some n =>
      simp only [processUser, hp]
      exact delaysAfterSuccess_doFetch p n ys
    | none =>
      cases hl : p.lookupUser s with
      | error m =>
        simp only [processUser, hp, hl, List.cons_append, List.nil_append]
        exact delaysAfterSuccess_lookupFail ys
      | ok r =>
        by_cases hr : jsTruthyNat r
        · simp only [processUser, hp, hl, hr, if_true, List.cons_append]
          rw [delaysAfterSuccess_lookupOk]
          exact delaysAfterSuccess_doFetch p (r.getD 0) ys
        · simp only [processUser, hp, hl, hr, if_false, List.cons_append, List.nil_append]
          exact delaysAfterSuccess_lookupFail ys

theorem delaysAfterSuccess_fetchLoop (p : Provider) (us : List UserIdent) :
    delaysAfterSuccess (fetchLoop p us).2 = true := by
  induction us with
  | nil => rfl
  | cons u us ih =>
    show delaysAfterSuccess ((processUser p u).2 ++ (fetchLoop p us).2) = true
    rw [delaysAfterSuccess_processUser]
    exact ih

/-- Claim C8 (amended): the fetcher enforces the 2000 ms cool-down only
after SUCCESSFUL provider calls (a lookup that resolved a truthy fid, or a
cast fetch that did not throw); after a failed call the loop proceeds to
the next author immediately, so two provider calls can be issued
back-to-back.  The positive guarantee: in every trace of the channel
fetcher, every successful call is immediately followed by `delay 2000`. -/
theorem delay_after_successful_calls (p : Provider) (users0 : List UserIdent) (now : Int) :
    delaysAfterSuccess (fetchChannelCasts p users0 now).2 = true := by
  unfold fetchChannelCasts
  by_cases h : users0.length = 0
  · simp [h]
    rfl
  · simp only [h, if_false]
    exact delaysAfterSuccess_fetchLoop p (users0.take 4)

/-- A digest entry `{ channel, casts, error }` pushed by the route handler
(lines 430 and 433). -/
structure ChannelEntry where
  channel : String
  casts : List ScoredCast
  error : Option String
deriving DecidableEq

/-- The cache slot (lines 23-27): `data` and `timestamp` start as `null`. -/
structure CacheState where
  data : Option (List ChannelEntry)
  timestamp : Option Int
deriving DecidableEq

/-- `CACHE_DURATION`: 30 minutes in milliseconds (line 26). -/
def CACHE_DURATION : Int := 30 * 60 * 1000

/-- Line 406: `!forceRefresh && cache.data && cache.timestamp && cacheAge <
cache.CACHE_DURATION` with `cacheAge = now - cache.timestamp` (line 405;
the age is only compared when the timestamp is truthy, because `&&`
short-circuits). -/
def isCacheValid (s : CacheState) (forceRefresh : Bool) (now : Int) : Bool :=
  !forceRefresh && s.data.isSome && jsTruthyInt s.timestamp &&
    decide (now - s.timestamp.getD 0 < CACHE_DURATION)

/-- The sequential per-channel loop of the route handler (lines 423-435):
one entry per configured channel in config order; since the modelled
`fetchChannelCasts` is total, the `catch` at lines 431-434 never fires and
every entry carries `error: null`.  The second component is the
concatenated provider-call trace. -/
def buildDigest (p : Provider) (channels : List (String × List UserIdent)) (now : Int) :
    List ChannelEntry × List FetchEvent :=
  match channels with
  | [] => ([], [])
  | c :: rest =>
    let r := fetchChannelCasts p c.2 now
    let d := buildDigest p rest now
    ({ channel := c.1, casts := r.1, error := none } :: d.1, r.2 ++ d.2)

/-- The `GET /` handler (lines 398-445) as a state transformer: serves the
cached digest untouched when the cache is valid, otherwise performs the
full sequential fetch, overwrites the cache slot wholesale (`cache.data`
and `cache.timestamp` together, lines 438-439, with `now2 = Date.now()`
taken after the fetch), and serves the fresh digest.  Returns (digest
served, new cache state, provider-call trace of this request). -/
def handleRequest (p : Provider) (channels : List (String × List UserIdent))
    (s : CacheState) (forceRefresh : Bool) (now now2 : Int) :
    List ChannelEntry × CacheState × List FetchEvent :=
  if isCacheValid s forceRefresh now then
    (s.data.getD [], s, [])
  else
    let d := buildDigest p channels now
    (d.1, { data := some d.1, timestamp := some now2 }, d.2)

/-- Claim C4: a second call without `forceRefresh`, while a cached digest
exists (slot stamped with a truthy capture timestamp) and its age is
strictly below the 30-minute TTL, returns the cached digest unchanged,
leaves the cache slot untouched, and performs zero provider calls. -/
theorem cache_hit_returns_cached_digest (p : Provider)
    (channels : List (String × List UserIdent)) (s : CacheState)
    (now now2 : Int) (d : List ChannelEntry) (t : Int)
    (hd : s.data = some d) (ht : s.timestamp = some t) (ht0 : t ≠ 0)
    (hage : now - t < CACHE_DURATION) :
    handleRequest p channels s false now now2 = (d, s, []) := by
  have hvalid : isCacheValid s false now = true := by
    simp [isCacheValid, hd, ht, jsTruthyInt, ht0, hage]
  rw [handleRequest, if_pos hvalid, hd]
  rfl

/-- Witness for C4: a concrete cache slot captured at time 5 and read at
time 10 (age 5 ms < 30 min) is served as-is with an empty call trace. -/
theorem cache_hit_returns_cached_digest_witness :
    handleRequest witnessProvider [("/farcaster", [UserIdent.fid 2])]
        { data := some [{ channel := "/farcaster", casts := [], error := none }]
          timestamp := some 5 } false 10 11 =
      ([{ channel := "/farcaster", casts := [], error := none }],
       { data := some [{ channel := "/farcaster", casts := [], error := none }]
         timestamp := some 5 }, []) :=
  cache_hit_returns_cached_digest witnessProvider [("/farcaster", [UserIdent.fid 2])]
    { data := some [{ channel := "/farcaster", casts := [], error := none }]
      timestamp := some 5 }
    10 11 [{ channel := "/farcaster", casts := [], error := none }] 5
    rfl rfl (by decide) (by decide)

/-- Claim C5: for every cache state, a request with `forceRefresh = true`
performs the full sequential re-fetch (the digest and trace are exactly
those of `buildDigest`) and overwrites the cache slot wholesale: data and
capture timestamp are replaced together. -/
theorem force_refresh_always_refetches (p : Provider)
    (channels : List (String × List UserIdent)) (s : CacheState) (now now2 : Int) :
    handleRequest p channels s true now now2 =
      ((buildDigest p channels now).1,
       { data := some (buildDigest p channels now).1, timestamp := some now2 },
       (buildDigest p channels now).2) := by
  have hinvalid : isCacheValid s true now = false := by
    simp [isCacheValid]
  rw [handleRequest, if_neg (by rw [hinvalid]; exact Bool.false_ne_true)]

/-- The outer try/catch of `fetchChannelCasts` (lines 203-206): whatever
the try block does — `body` is its outcome, `Except.error` standing for any
unexpectedly thrown error — the function returns a cast list, an empty one
on error. -/
def fetchChannelCastsGuarded (body : Except String (List ScoredCast)) : List ScoredCast :=
  match body with
  | Except.ok cs => cs
  | Except.error _ => []

/-- The route-level try/catch around one channel (lines 426-435): a thrown
error becomes an entry with empty casts and the error message, a normal
result becomes an entry with `error: null`. -/
def routeEntry (channel : String) (r : Except String (List ScoredCast)) : ChannelEntry :=
  match r with
  | Except.ok cs => { channel := channel, casts := cs, error := none }
  | Except.error m => { channel := channel, casts := [], error := some m }

/-- How the two catch layers compose in the code: each channel's try-block
outcome first passes through `fetchChannelCasts`'s own catch (which yields
a normal — never thrown — result), and only then through the route-level
catch. -/
def routeDigest (bodies : List (String × Except String (List ScoredCast))) :
    List ChannelEntry :=
  bodies.map (fun cb => routeEntry cb.1 (Except.ok (fetchChannelCastsGuarded cb.2)))

/-- Claim C6 counterexample: against the claim, an unexpected error raised
during a channel's aggregation does NOT produce an entry with a non-empty
error description: the error is swallowed inside `fetchChannelCasts`
(which returns `[]`), so the entry carries `error: null` and the message
"boom" appears nowhere. -/
theorem channel_error_entry_counterexample :
    routeDigest [("/farcaster", Except.error "boom"), ("/fc-devs", Except.ok [])] =
      [{ channel := "/farcaster", casts := [], error := none },
       { channel := "/fc-devs", casts := [], error := none }] ∧
    (routeDigest [("/farcaster", Except.error "boom"), ("/fc-devs", Except.ok [])]).map
        ChannelEntry.error ≠ [some "boom", none] := by
  refine ⟨rfl, ?_⟩
  decide

/-- Claim C6 (amended): an unexpected error raised during one channel's
aggregation is caught inside `fetchChannelCasts`, which returns an empty
cast list, so that channel's entry carries empty casts and a `null` error
description (the route-level catch that would record the message is
unreachable because `fetchChannelCasts` never throws); the entries of all
other channels are exactly what they would have been anyway. -/
theorem channel_error_entry_amended (pre post : List (String × Except String (List ScoredCast)))
    (ch m : String) :
    routeDigest (pre ++ (ch, Except.error m) :: post) =
      routeDigest pre ++ { channel := ch, casts := [], error := none } :: routeDigest post := by
  simp [routeDigest, routeEntry, fetchChannelCastsGuarded]

end FarcasterDigest
